import Mathlib

/-!
Shallow embedding of the barcode-recognition core of `confluence_uploader`
(files `caper_normalizer.py`, `processor.py`, `barcode_parser.py`), together
with theorems settling the frozen claims about it.

Modelling conventions:
* Python `str` is modelled as Lean `String`; Python `int` as `Int`/`Nat`.
* Python float arithmetic is modelled by exact rationals `ℚ`.  Where a float
  literal participates in an `int(...)` truncation or a comparison, the exact
  IEEE-754 double value of the literal is used (e.g. 1.3 is
  5854679515581645/2^52), so truncation boundaries match the source.
* Python `int(x)` on a nonnegative/negative rational truncates toward zero
  (`rat_trunc` below).
* Regular expressions of the source are unfolded into their explicit meaning
  on the strings they are applied to (the patterns are anchored and built
  from literal prefixes and `\d{n}` groups only).
-/

namespace Caper

/-- Embedding of `caper_normalizer._digits_only` (caper_normalizer.py:13):
keep only the digit characters of a string. -/
def digits_only (s : String) : String :=
  String.mk (s.toList.filter Char.isDigit)

/-- Embedding of `caper_normalizer._left_pad_to_13` (caper_normalizer.py:18):
project to digits, then truncate to 13 or left-pad with zeros to 13. -/
def left_pad_to_13 (s : String) : String :=
  let d := digits_only s
  if 13 ≤ d.length then String.mk (d.toList.take 13)
  else String.mk (List.replicate (13 - d.length) '0' ++ d.toList)

/-- Embedding of `caper_normalizer._remove_check_digit_and_pad`
(caper_normalizer.py:26): drop the last digit and pad to 13. -/
def remove_check_digit_and_pad (s : String) : String :=
  let d := digits_only s
  if d.length = 0 then d
  else left_pad_to_13 (String.mk d.toList.dropLast)

/-- Embedding of `caper_normalizer._to_padded_raw_barcode`
(caper_normalizer.py:35): pad the raw digits to 13 without stripping. -/
def to_padded_raw_barcode (s : String) : String :=
  left_pad_to_13 (digits_only s)

/-- Numeric value of a digit character (Python `int(c)` on a digit). -/
def char_digit_val (c : Char) : Nat := c.toNat - 48

/-- Embedding of `caper_normalizer._calculate_check_digit`
(caper_normalizer.py:41): GTIN check digit, weights 3 on even indices from
the left, 1 on odd indices. -/
def calculate_check_digit (s : String) : Option Nat :=
  if s.length = 0 ∨ ¬ s.toList.all Char.isDigit then none
  else
    let total :=
      (s.toList.enum.map
        (fun p => char_digit_val p.2 * (if p.1 % 2 = 0 then 3 else 1))).sum
    some ((10 - total % 10) % 10)

/-- Embedding of `caper_normalizer._is_valid_check_digit`
(caper_normalizer.py:53): recompute the check digit over all but the last
character and compare with the last character. -/
def is_valid_check_digit (barcode : String) : Bool :=
  if barcode.length < 2 then false
  else
    match calculate_check_digit (String.mk barcode.toList.dropLast) with
    | none => false
    | some check => barcode.toList.getLastD ' ' == Nat.digitChar check

/-- Embedding of `caper_normalizer._expand_upce_to_upca`
(caper_normalizer.py:62): the standard last-digit-dependent UPC-E → UPC-A
expansion table. -/
def expand_upce_to_upca (upce : String) : Option String :=
  let ds0 := (digits_only upce).toList
  let ds := if ds0.length = 6 then '0' :: (ds0 ++ ['0'])
            else if ds0.length = 7 then ds0 ++ ['0']
            else ds0
  if ds.length ≠ 8 then none
  else if ds.getD 0 ' ' ≠ '0' ∧ ds.getD 0 ' ' ≠ '1' then none
  else
    let number_system := ds.getD 0 ' '
    let last_digit := ds.getD 6 ' '
    let manufacturer := (ds.drop 1).take 5
    let check := ds.getD 7 ' '
    let expanded :=
      if last_digit = '0' ∨ last_digit = '1' ∨ last_digit = '2' then
        number_system ::
          (manufacturer.take 2 ++ [last_digit] ++ List.replicate 4 '0' ++
            manufacturer.drop 2 ++ [check])
      else if last_digit = '3' then
        number_system ::
          (manufacturer.take 3 ++ List.replicate 5 '0' ++
            manufacturer.drop 3 ++ [check])
      else if last_digit = '4' then
        number_system ::
          (manufacturer.take 4 ++ List.replicate 5 '0' ++
            manufacturer.drop 4 ++ [check])
      else
        number_system :: (manufacturer ++ List.replicate 4 '0' ++ [last_digit, check])
    some (String.mk expanded)

/-- Meaning of the anchored regex `_EAN13_PRICE_EMBEDDED`
(caper_normalizer.py:7) on a string: `^2\d{5}\d\d{5}\d$`, i.e. 13 digit
characters starting with '2'. -/
def ean13_price_matches (s : String) : Bool :=
  (s.length == 13) && s.toList.all Char.isDigit && (s.toList.headD ' ' == '2')

/-- Meaning of the anchored regex `_DATABAR_EXPANDED`
(caper_normalizer.py:10) applied to a string: literal "01", then 13 digits
(the `gtin` group, returned here), then one arbitrary character and at least
one more character. -/
def databar_expanded_gtin (s : String) : Option String :=
  if s.startsWith ("01") ∧ 17 ≤ s.length ∧ ((s.toList.drop 2).take 13).all Char.isDigit
  then some (String.mk ((s.toList.drop 2).take 13))
  else none

/-- Python `candidates.append(v)` guarded by `if v not in candidates`. -/
def append_if_new (cs : List String) (v : String) : List String :=
  if v ∈ cs then cs else cs ++ [v]

/-- Python `candidates.append(v)` guarded by `if v and v not in candidates`
(the value must also be a non-empty string). -/
def append_if_nonempty_new (cs : List String) (v : String) : List String :=
  if v.length ≠ 0 ∧ v ∉ cs then cs ++ [v] else cs

/-- Python `s.ljust(13, "0")`: pad on the right with zeros up to 13. -/
def ljust13_zeros (s : String) : String :=
  String.mk (s.toList ++ List.replicate (13 - s.length) '0')

/-- UPC-E expansion branch of `normalize_candidates`
(caper_normalizer.py:141-147). -/
def upce_stage (raw barcode_type : String) (cs : List String) : List String :=
  if (barcode_type = ("UPC-E") ∨ barcode_type = ("UPCE")) ∧
      6 ≤ raw.length ∧ raw.length ≤ 8 then
    match expand_upce_to_upca raw with
    | some upca => append_if_nonempty_new cs (remove_check_digit_and_pad upca)
    | none => cs
  else cs

/-- EAN-8 branch of `normalize_candidates` (caper_normalizer.py:149-153). -/
def ean8_stage (raw barcode_type : String) (cs : List String) : List String :=
  if barcode_type = ("EAN-8") ∧ raw.length = 8 then
    append_if_nonempty_new cs (remove_check_digit_and_pad raw)
  else cs

/-- First half of the DataBar / GS1 branch of `normalize_candidates`
(caper_normalizer.py:157-163): the AI-element ("DataBar Expanded") case.
`value` is the original (pre-projection) text, `raw` its digit
projection. -/
def databar_ai_stage (raw value : String) (cs : List String) : List String :=
  if value.startsWith ("01") ∨ value.startsWith ("(01)") then
    match databar_expanded_gtin raw with
    | some g => append_if_nonempty_new cs g
    | none => cs
  else cs

/-- DataBar / GS1 branch of `normalize_candidates`
(caper_normalizer.py:155-181). -/
def databar_stage (raw value barcode_type : String) (cs : List String) : List String :=
  if barcode_type = ("GS1 DataBar") ∨ barcode_type = ("GS1 DataBar Expanded") ∨
      barcode_type = ("DataBar") then
    if raw.length = 16 ∧ raw.startsWith ("01") then
      append_if_nonempty_new
        (append_if_nonempty_new (databar_ai_stage raw value cs)
          (String.mk (raw.toList.drop 2)))
        (remove_check_digit_and_pad (String.mk (raw.toList.drop 2)))
    else if raw.length = 14 then
      append_if_nonempty_new (append_if_new (databar_ai_stage raw value cs) raw)
        (remove_check_digit_and_pad raw)
    else databar_ai_stage raw value cs
  else cs

/-- Code 128 branch of `normalize_candidates` (caper_normalizer.py:183-207). -/
def code128_stage (raw barcode_type : String) (cs : List String) : List String :=
  if barcode_type = ("Code 128") then
    if 9 ≤ raw.length ∧ raw.length ≤ 11 then
      append_if_nonempty_new
        (append_if_nonempty_new cs (remove_check_digit_and_pad raw))
        (to_padded_raw_barcode raw)
    else if raw.length = 12 then
      if ¬ raw.startsWith ("2") then
        if is_valid_check_digit raw then
          append_if_nonempty_new cs (remove_check_digit_and_pad raw)
        else
          append_if_nonempty_new cs (to_padded_raw_barcode raw)
      else cs
    else cs
  else cs

/-- Normalized-price-embedded ("002" prefixed 13-digit value) branch of
`normalize_candidates` (caper_normalizer.py:209-214). -/
def price002_stage (raw : String) (cs : List String) : List String :=
  if raw.length = 13 ∧ raw.startsWith ("002") then
    append_if_new cs (String.mk (raw.toList.take 8 ++ List.replicate 5 '0'))
  else cs

/-- Standard UPC-A branch of `normalize_candidates`
(caper_normalizer.py:216-220). -/
def upca_stage (raw barcode_type : String) (cs : List String) : List String :=
  if (barcode_type = ("UPC-A") ∨ barcode_type = ("UPCA")) ∧ raw.length = 12 then
    append_if_nonempty_new cs (remove_check_digit_and_pad raw)
  else cs

/-- Standard (non-price-embedded) EAN-13 branch of `normalize_candidates`
(caper_normalizer.py:222-226). -/
def ean13_stage (raw barcode_type : String) (cs : List String) : List String :=
  if barcode_type = ("EAN-13") ∧ raw.length = 13 ∧ ¬ raw.startsWith ("2") then
    append_if_nonempty_new cs (remove_check_digit_and_pad raw)
  else cs

/-- Embedding of `caper_normalizer.normalize_candidates`
(caper_normalizer.py:98-228): prioritized lookup candidate list for a raw
decoded value and its symbology.  The stage functions above are applied in
the source's order; the price-embedded EAN-13 branch returns early. -/
def normalize_candidates (value barcode_type : String) : List String :=
  let raw := digits_only value
  if raw.length = 0 then []
  else if barcode_type = ("EAN-13") ∧ raw.length = 13 ∧ ean13_price_matches raw then
    let item_code := String.mk ((raw.toList.drop 1).take 5)
    let lookup := ljust13_zeros (("002") ++ item_code)
    let no_price := String.mk (raw.toList.take 8 ++ List.replicate 5 '0')
    append_if_new (append_if_new [raw] lookup) no_price
  else
    ean13_stage raw barcode_type
      (upca_stage raw barcode_type
        (price002_stage raw
          (code128_stage raw barcode_type
            (databar_stage raw value barcode_type
              (ean8_stage raw barcode_type
                (upce_stage raw barcode_type [raw]))))))

/-- Numeric value of a digit string (Python `int(...)` on a digit string). -/
def str_to_nat (s : String) : Nat :=
  s.toList.foldl (fun a c => a * 10 + char_digit_val c) 0

/-- Embedding of `caper_normalizer.extract_price_from_barcode`
(caper_normalizer.py:231-250): the embedded price in cents, when the value
is price-embedded. -/
def extract_price_from_barcode (value barcode_type : String) : Option Nat :=
  let raw := digits_only value
  if barcode_type = ("EAN-13") ∧ raw.length = 13 ∧ ean13_price_matches raw then
    some (str_to_nat (String.mk ((raw.toList.drop 7).take 5)))
  else if raw.length = 13 ∧ raw.startsWith ("002") then
    some (str_to_nat (String.mk ((raw.toList.drop 8).take 4)))
  else none

/-- Invariant used for the shape theorem about `normalize_candidates`: the
candidate list is non-empty, starts with the raw digit projection, and has
no duplicates. -/
def CandShape (raw : String) (cs : List String) : Prop :=
  cs ≠ [] ∧ cs.head? = some raw ∧ cs.Nodup

theorem candShape_append_if_new {raw v : String} {cs : List String}
    (h : CandShape raw cs) : CandShape raw (append_if_new cs v) := by
  obtain ⟨h1, h2, h3⟩ := h
  unfold append_if_new
  split
  · exact ⟨h1, h2, h3⟩
  · rename_i hv
    refine ⟨by simp, ?_, ?_⟩
    · rw [List.head?_append, h2]; rfl
    · rw [List.nodup_append]
      exact ⟨h3, List.nodup_singleton v, by
        intro a ha ha'
        simp only [List.mem_singleton] at ha'
        exact hv (ha' ▸ ha)⟩

theorem candShape_append_if_nonempty_new {raw v : String} {cs : List String}
    (h : CandShape raw cs) : CandShape raw (append_if_nonempty_new cs v) := by
  obtain ⟨h1, h2, h3⟩ := h
  unfold append_if_nonempty_new
  split
  · rename_i hv
    refine ⟨by simp, ?_, ?_⟩
    · rw [List.head?_append, h2]; rfl
    · rw [List.nodup_append]
      exact ⟨h3, List.nodup_singleton v, by
        intro a ha ha'
        simp only [List.mem_singleton] at ha'
        exact hv.2 (ha' ▸ ha)⟩
  · exact ⟨h1, h2, h3⟩

theorem candShape_upce_stage {raw t : String} {cs : List String}
    (h : CandShape raw cs) : CandShape raw (upce_stage raw t cs) := by
  unfold upce_stage
  split
  · split
    · exact candShape_append_if_nonempty_new h
    · exact h
  · exact h

theorem candShape_ean8_stage {raw t : String} {cs : List String}
    (h : CandShape raw cs) : CandShape raw (ean8_stage raw t cs) := by
  unfold ean8_stage
  split
  · exact candShape_append_if_nonempty_new h
  · exact h

theorem candShape_databar_ai_stage {raw v : String} {cs : List String}
    (h : CandShape raw cs) : CandShape raw (databar_ai_stage raw v cs) := by
  unfold databar_ai_stage
  split
  · split
    · exact candShape_append_if_nonempty_new h
    · exact h
  · exact h

theorem candShape_databar_stage {raw v t : String} {cs : List String}
    (h : CandShape raw cs) : CandShape raw (databar_stage raw v t cs) := by
  unfold databar_stage
  split
  · split
    · exact candShape_append_if_nonempty_new
        (candShape_append_if_nonempty_new (candShape_databar_ai_stage h))
    · split
      · exact candShape_append_if_nonempty_new
          (candShape_append_if_new (candShape_databar_ai_stage h))
      · exact candShape_databar_ai_stage h
  · exact h

theorem candShape_code128_stage {raw t : String} {cs : List String}
    (h : CandShape raw cs) : CandShape raw (code128_stage raw t cs) := by
  unfold code128_stage
  split
  · split
    · exact candShape_append_if_nonempty_new (candShape_append_if_nonempty_new h)
    · split
      · split
        · split
          · exact candShape_append_if_nonempty_new h
          · exact candShape_append_if_nonempty_new h
        · exact h
      · exact h
  · exact h

theorem candShape_price002_stage {raw : String} {cs : List String}
    (h : CandShape raw cs) : CandShape raw (price002_stage raw cs) := by
  unfold price002_stage
  split
  · exact candShape_append_if_new h
  · exact h

theorem candShape_upca_stage {raw t : String} {cs : List String}
    (h : CandShape raw cs) : CandShape raw (upca_stage raw t cs) := by
  unfold upca_stage
  split
  · exact candShape_append_if_nonempty_new h
  · exact h

theorem candShape_ean13_stage {raw t : String} {cs : List String}
    (h : CandShape raw cs) : CandShape raw (ean13_stage raw t cs) := by
  unfold ean13_stage
  split
  · exact candShape_append_if_nonempty_new h
  · exact h

theorem candShape_singleton (raw : String) : CandShape raw [raw] :=
  ⟨by simp, rfl, List.nodup_singleton raw⟩

/-- C5.  For every input containing at least one digit character and every
symbology, `normalize_candidates` returns a non-empty list whose first
element is the digit-only projection of the input and which contains no
duplicate strings. -/
theorem C5_normalize_candidates_shape (value barcode_type : String)
    (h : ∃ c ∈ value.toList, c.isDigit) :
    normalize_candidates value barcode_type ≠ [] ∧
    (normalize_candidates value barcode_type).head? = some (digits_only value) ∧
    (normalize_candidates value barcode_type).Nodup := by
  have hraw : ¬ (digits_only value).length = 0 := by
    obtain ⟨c, hc, hdig⟩ := h
    intro hlen
    have hmem : c ∈ value.toList.filter Char.isDigit := List.mem_filter.mpr ⟨hc, hdig⟩
    have hlen' : (value.toList.filter Char.isDigit).length = 0 := hlen
    rw [List.length_eq_zero] at hlen'
    rw [hlen'] at hmem
    exact (List.not_mem_nil c) hmem
  have main : CandShape (digits_only value) (normalize_candidates value barcode_type) := by
    unfold normalize_candidates
    dsimp only
    split
    · exact absurd (by assumption) hraw
    · split
      · exact candShape_append_if_new (candShape_append_if_new
          (candShape_singleton _))
      · exact candShape_ean13_stage (candShape_upca_stage
          (candShape_price002_stage (candShape_code128_stage
            (candShape_databar_stage (candShape_ean8_stage
              (candShape_upce_stage (candShape_singleton _)))))))
  exact main

/-- Witness for C5 at a concrete input. -/
theorem C5_normalize_candidates_shape_witness :
    (∃ c ∈ ("a1b2c" : String).toList, c.isDigit) ∧
    (normalize_candidates ("a1b2c") ("Mystery") ≠ [] ∧
      (normalize_candidates ("a1b2c") ("Mystery")).head? =
        some (digits_only ("a1b2c")) ∧
      (normalize_candidates ("a1b2c") ("Mystery")).Nodup) :=
  ⟨by decide, C5_normalize_candidates_shape ("a1b2c") ("Mystery") (by decide)⟩

/-- C4 counterexample.  The claim asserts that normalizing the
price-embedded EAN-13 "2012345678905" yields
["2012345678905", "002"+"12345" padded, "20123450"+"00000"]
= ["2012345678905", "0021234500000", "2012345000000"].  The code's regex
takes the item-code group from digits 1..5 ("01234", not "12345") and the
no-price variant from the first 8 digits ("20123456", not "20123450"), so
the computed list differs from the claimed one at both later positions. -/
theorem C4_price_embedded_counterexample :
    normalize_candidates ("2012345678905") ("EAN-13") ≠
      [("2012345678905"), ("0021234500000"), ("2012345000000")] := by decide

/-- C4 amended.  Normalizing raw_text "2012345678905" as EAN-13 yields
exactly ["2012345678905", "002" ++ item code "01234" padded with trailing
zeros to 13, first 8 digits "20123456" ++ "00000"] in that order, and the
embedded 5-digit price field "67890" is extracted as price 67890. -/
theorem C4_price_embedded_normalization :
    normalize_candidates ("2012345678905") ("EAN-13") =
      [("2012345678905"), ljust13_zeros (("002") ++ ("01234")),
        ("20123456") ++ ("00000")] ∧
    normalize_candidates ("2012345678905") ("EAN-13") =
      [("2012345678905"), ("0020123400000"), ("2012345600000")] ∧
    extract_price_from_barcode ("2012345678905") ("EAN-13") = some 67890 := by
  refine ⟨by decide, by decide, by decide⟩

/-- C6.  Normalizing the UPC-E raw text "01234565" expands it via the
last-digit-dependent expansion table (last digit '6', so manufacturer ++
"0000" ++ last digit ++ check) to the 12-digit UPC-A "012345000065",
strips that UPC-A's check digit and left-pads to 13, and the resulting
second candidate "0001234500006" is a 13-digit string distinct from the
raw first candidate. -/
theorem C6_upce_expansion :
    expand_upce_to_upca ("01234565") = some ("012345000065") ∧
    (("012345000065") : String).length = 12 ∧
    normalize_candidates ("01234565") ("UPC-E") =
      [("01234565"), ("0001234500006")] ∧
    remove_check_digit_and_pad ("012345000065") = ("0001234500006") ∧
    (("0001234500006") : String).length = 13 ∧
    (("0001234500006") : String) ≠ ("01234565") := by
  refine ⟨by decide, by decide, by decide, by decide, by decide, by decide⟩

end Caper

namespace Processor

/-- Embedding of `barcode_parser.DetectedBarcode` (barcode_parser.py:55):
type, decoded text, bounding quadrilateral in image coordinates, and the
optional detection-method tag. -/
structure DetectedBarcode where
  barcode_type : String
  barcode_value : String
  quad : List (Int × Int)
  detection_method : Option String := none
deriving DecidableEq, Repr

/-- Embedding of `processor._checksum_ean13` (processor.py:167-173):
odd/even-weighted mod-10 check over a 13-digit string. -/
def checksum_ean13 (s : String) : Bool :=
  if s.length = 13 ∧ s.toList.all Char.isDigit then
    let d := s.toList.map Caper.char_digit_val
    let sum_odd := ((List.range 6).map (fun k => d.getD (2 * k) 0)).sum
    let sum_even := ((List.range 6).map (fun k => d.getD (2 * k + 1) 0)).sum
    (10 - (sum_odd + 3 * sum_even) % 10) % 10 == d.getD 12 0
  else false

/-- Embedding of `processor._checksum_ean8` (processor.py:176-182). -/
def checksum_ean8 (s : String) : Bool :=
  if s.length = 8 ∧ s.toList.all Char.isDigit then
    let d := s.toList.map Caper.char_digit_val
    let sum_odd := ((List.range 4).map (fun k => d.getD (2 * k) 0)).sum
    let sum_even := ((List.range 3).map (fun k => d.getD (2 * k + 1) 0)).sum
    (10 - (3 * sum_odd + sum_even) % 10) % 10 == d.getD 7 0
  else false

/-- Embedding of `processor._checksum_upca` (processor.py:185-191). -/
def checksum_upca (s : String) : Bool :=
  if s.length = 12 ∧ s.toList.all Char.isDigit then
    let d := s.toList.map Caper.char_digit_val
    let sum_odd := ((List.range 6).map (fun k => d.getD (2 * k) 0)).sum
    let sum_even := ((List.range 5).map (fun k => d.getD (2 * k + 1) 0)).sum
    (10 - (sum_odd * 3 + sum_even) % 10) % 10 == d.getD 11 0
  else false

/-- Embedding of `processor._is_valid_upcean` (processor.py:194-202):
checksum validation by symbology; anything other than EAN-13/EAN-8/UPC-A
(in particular UPC-E) passes unconditionally. -/
def is_valid_upcean (barcode_type value : String) : Bool :=
  if barcode_type = ("EAN-13") then checksum_ean13 value
  else if barcode_type = ("EAN-8") then checksum_ean8 value
  else if barcode_type = ("UPC-A") then checksum_upca value
  else true

/-- The set literal `{"EAN-13", "EAN-8", "UPC-A"}` of processor.py:281. -/
def checked_types : List String := [("EAN-13"), ("EAN-8"), ("UPC-A")]

/-- The set literal `{"UPC-A", "EAN-13", "UPC-E", "EAN-8"}` of
processor.py:286 (also lines 301/314/319). -/
def upcean_types : List String := [("UPC-A"), ("EAN-13"), ("UPC-E"), ("EAN-8")]

/-- Loop body of `processor._dedupe_and_filter` (processor.py:271-293),
with the mutable `seen` / `seen_types` sets made explicit. -/
def dedupe_aux : List DetectedBarcode → List (String × String) → List String →
    List DetectedBarcode
  | [], _, _ => []
  | b :: rest, seen, seen_types =>
    if (b.barcode_type, b.barcode_value) ∈ seen then
      dedupe_aux rest seen seen_types
    else if b.barcode_type ∈ checked_types ∧
        is_valid_upcean b.barcode_type b.barcode_value = false then
      dedupe_aux rest seen seen_types
    else if b.barcode_type ∈ upcean_types ∧ b.barcode_type ∈ seen_types then
      dedupe_aux rest seen seen_types
    else
      b :: dedupe_aux rest ((b.barcode_type, b.barcode_value) :: seen)
        (if b.barcode_type ∈ upcean_types then b.barcode_type :: seen_types
         else seen_types)

/-- Embedding of `processor._dedupe_and_filter` (processor.py:271-293). -/
def dedupe_and_filter (barcodes : List DetectedBarcode) : List DetectedBarcode :=
  dedupe_aux barcodes [] []

/-- A detection passes the checksum gate of `_dedupe_and_filter`
(processor.py:281): either its type is not checksum-checked (e.g. UPC-E),
or its value's checksum is valid. -/
def checksum_eligible (b : DetectedBarcode) : Bool :=
  if b.barcode_type ∈ checked_types then
    is_valid_upcean b.barcode_type b.barcode_value
  else true

theorem dedupe_aux_valid (l : List DetectedBarcode)
    (seen : List (String × String)) (st : List String) :
    ∀ b ∈ dedupe_aux l seen st, b.barcode_type ∈ checked_types →
      is_valid_upcean b.barcode_type b.barcode_value = true := by
  induction l generalizing seen st with
  | nil => intro b hb; simp [dedupe_aux] at hb
  | cons a rest ih =>
    intro b hb hmem
    rw [dedupe_aux] at hb
    split at hb
    · exact ih _ _ b hb hmem
    · split at hb
      · exact ih _ _ b hb hmem
      · split at hb
        · exact ih _ _ b hb hmem
        · rename_i hdup hval hst
          rcases List.mem_cons.mp hb with h | h
          · subst h
            rcases Bool.eq_false_or_eq_true
              (is_valid_upcean b.barcode_type b.barcode_value) with ht | hf
            · exact ht
            · exact absurd ⟨hmem, hf⟩ hval
          · exact ih _ _ b h hmem

theorem dedupe_aux_keys_nodup (l : List DetectedBarcode)
    (seen : List (String × String)) (st : List String) :
    ((dedupe_aux l seen st).map
        (fun b => (b.barcode_type, b.barcode_value))).Nodup ∧
    ∀ b ∈ dedupe_aux l seen st, (b.barcode_type, b.barcode_value) ∉ seen := by
  induction l generalizing seen st with
  | nil => simp [dedupe_aux]
  | cons a rest ih =>
    rw [dedupe_aux]
    split
    · exact ih _ _
    · split
      · exact ih _ _
      · split
        · exact ih _ _
        · rename_i hdup hval hst
          obtain ⟨ihn, ihs⟩ := ih ((a.barcode_type, a.barcode_value) :: seen)
            (if a.barcode_type ∈ upcean_types then a.barcode_type :: st else st)
          constructor
          · rw [List.map_cons, List.nodup_cons]
            refine ⟨?_, ihn⟩
            intro hk
            obtain ⟨b, hb, hkey⟩ := List.mem_map.mp hk
            exact (ihs b hb) (hkey ▸ List.mem_cons_self _ _)
          · intro b hb
            rcases List.mem_cons.mp hb with h | h
            · subst h; exact hdup
            · intro hin
              exact (ihs b h) (List.mem_cons_of_mem _ hin)

theorem dedupe_aux_absorbed (l : List DetectedBarcode)
    (seen : List (String × String)) (st : List String) (T : String)
    (hT : T ∈ upcean_types) (hst : T ∈ st) :
    (dedupe_aux l seen st).filter (fun b => b.barcode_type == T) = [] := by
  induction l generalizing seen st with
  | nil => simp [dedupe_aux]
  | cons a rest ih =>
    rw [dedupe_aux]
    split
    · exact ih _ _ hst
    · split
      · exact ih _ _ hst
      · split
        · exact ih _ _ hst
        · rename_i hdup hval hstc
          have hne : a.barcode_type ≠ T := by
            intro h
            exact hstc ⟨h ▸ hT, h ▸ hst⟩
          have hpa : (a.barcode_type == T) = false := by
            simpa using hne
          rw [List.filter_cons, hpa]
          simp only [Bool.false_eq_true, if_false]
          apply ih
          split
          · exact List.mem_cons_of_mem _ hst
          · exact hst

theorem dedupe_aux_first_seen (l : List DetectedBarcode)
    (seen : List (String × String)) (st : List String) (T : String)
    (hT : T ∈ upcean_types) (hst : T ∉ st) (hseen : ∀ k ∈ seen, k.1 ≠ T) :
    (dedupe_aux l seen st).filter (fun b => b.barcode_type == T) =
      (l.filter (fun b => b.barcode_type == T && checksum_eligible b)).take 1 := by
  induction l generalizing seen st with
  | nil => simp [dedupe_aux]
  | cons a rest ih =>
    rw [dedupe_aux]
    split
    · rename_i hdup
      have hne : a.barcode_type ≠ T := hseen _ hdup
      have hpa : (a.barcode_type == T && checksum_eligible a) = false := by
        simp [hne]
      rw [List.filter_cons, hpa]
      simp only [Bool.false_eq_true, if_false]
      exact ih seen st hst hseen
    · split
      · rename_i hdup hval
        have hpa : (a.barcode_type == T && checksum_eligible a) = false := by
          have hel : checksum_eligible a = false := by
            unfold checksum_eligible
            rw [if_pos hval.1]
            exact hval.2
          simp [hel]
        rw [List.filter_cons, hpa]
        simp only [Bool.false_eq_true, if_false]
        exact ih seen st hst hseen
      · split
        · rename_i hdup hval hstc
          have hne : a.barcode_type ≠ T := by
            intro h
            exact hst (h ▸ hstc.2)
          have hpa : (a.barcode_type == T && checksum_eligible a) = false := by
            simp [hne]
          rw [List.filter_cons, hpa]
          simp only [Bool.false_eq_true, if_false]
          exact ih seen st hst hseen
        · rename_i hdup hval hstc
          by_cases haT : a.barcode_type = T
          · have hel : checksum_eligible a = true := by
              unfold checksum_eligible
              split
              · rename_i hchk
                rcases Bool.eq_false_or_eq_true
                  (is_valid_upcean a.barcode_type a.barcode_value) with ht | hf
                · exact ht
                · exact absurd ⟨hchk, hf⟩ hval
              · rfl
            have hpa : (a.barcode_type == T && checksum_eligible a) = true := by
              simp [haT, hel]
            have hpl : (a.barcode_type == T) = true := by simp [haT]
            rw [List.filter_cons, List.filter_cons, hpa, hpl]
            simp only [if_true, List.take_succ_cons, List.take_zero]
            have habs : (dedupe_aux rest ((a.barcode_type, a.barcode_value) :: seen)
                (if a.barcode_type ∈ upcean_types then a.barcode_type :: st
                 else st)).filter (fun b => b.barcode_type == T) = [] := by
              apply dedupe_aux_absorbed _ _ _ _ hT
              rw [if_pos (haT ▸ hT)]
              exact haT ▸ List.mem_cons_self _ _
            rw [habs]
          · have hpa : (a.barcode_type == T && checksum_eligible a) = false := by
              simp [haT]
            have hpl : (a.barcode_type == T) = false := by simpa using haT
            rw [List.filter_cons, List.filter_cons, hpa, hpl]
            simp only [Bool.false_eq_true, if_false]
            apply ih
            · split
              · rename_i hmem
                intro hTin
                rcases List.mem_cons.mp hTin with h | h
                · exact haT h.symm
                · exact hst h
              · exact hst
            · intro k hk
              rcases List.mem_cons.mp hk with h | h
              · rw [h]; exact haT
              · exact hseen _ h

/-- Embedding of `processor._bbox_from_quad` (processor.py:215-220): the
axis-aligned bounding box (min x, min y, max x, max y) of a quad, `none`
for an empty quad. -/
def bbox_from_quad (b : DetectedBarcode) : Option (Int × Int × Int × Int) :=
  match b.quad with
  | [] => none
  | p :: ps =>
    some ((ps.map Prod.fst).foldl min p.1, (ps.map Prod.snd).foldl min p.2,
          (ps.map Prod.fst).foldl max p.1, (ps.map Prod.snd).foldl max p.2)

/-- Embedding of `processor._overlap_ratio_1d` (processor.py:223-231):
intersection length of two segments divided by the shorter segment length
(at least 1), in exact rational arithmetic. -/
def overlap_ratio_1d (a1 a2 b1 b2 : Int) : ℚ :=
  ((max 0 (min a2 b2 - max a1 b1) : Int) : ℚ) /
    ((max 1 (min (max 0 (a2 - a1)) (max 0 (b2 - b1))) : Int) : ℚ)

/-- The "stacked" test of `processor._prefer_topmost_stacked`
(processor.py:252-255) on two boxes (x1, y1, x2, y2): horizontal overlap
ratio at least 0.6 and vertical overlap ratio at most 0.1 (the float
thresholds modelled as the rationals 6/10 and 1/10). -/
def stacked_boxes (bi bj : Int × Int × Int × Int) : Prop :=
  6/10 ≤ overlap_ratio_1d bi.1 bi.2.2.1 bj.1 bj.2.2.1 ∧
  overlap_ratio_1d bi.2.1 bi.2.2.2 bj.2.1 bj.2.2.2 ≤ 1/10

instance (bi bj : Int × Int × Int × Int) : Decidable (stacked_boxes bi bj) :=
  inferInstanceAs (Decidable (_ ∧ _))

/-- Sort key of processor.py:242: the box's top edge y, `10^9` for entries
without a box. -/
def sort_key (t : Nat × Option (Int × Int × Int × Int)) : Int :=
  match t.2 with
  | some bx => bx.2.1
  | none => 1000000000

/-- Inner loop of `_prefer_topmost_stacked` (processor.py:248-261) for a
fixed undropped entry `(i, bi)` scanning the entries after it in sorted
order; returns the updated dropped set.  The branch that returns `i ::
dropped` without recursing is the source's `dropped.add(i); break`. -/
def stacked_inner (i : Nat) (bi : Int × Int × Int × Int) :
    List (Nat × Option (Int × Int × Int × Int)) → List Nat → List Nat
  | [], dropped => dropped
  | q :: rest, dropped =>
    if q.1 ∈ dropped then stacked_inner i bi rest dropped
    else
      match q.2 with
      | none => stacked_inner i bi rest dropped
      | some bj =>
        if stacked_boxes bi bj then
          if bi.2.1 ≤ bj.2.1 then stacked_inner i bi rest (q.1 :: dropped)
          else i :: dropped
        else stacked_inner i bi rest dropped

/-- Outer loop of `_prefer_topmost_stacked` (processor.py:243-261),
threading the dropped set through the sorted entry list. -/
def stacked_outer :
    List (Nat × Option (Int × Int × Int × Int)) → List Nat → List Nat
  | [], dropped => dropped
  | q :: rest, dropped =>
    match q.2 with
    | none => stacked_outer rest dropped
    | some bi =>
      if q.1 ∈ dropped then stacked_outer rest dropped
      else stacked_outer rest (stacked_inner q.1 bi rest dropped)

/-- The sorted entry list of `_prefer_topmost_stacked` (processor.py:238-242):
indexed boxes sorted by top-edge y (missing boxes last, key 10^9). -/
def stacked_order (barcodes : List DetectedBarcode) :
    List (Nat × Option (Int × Int × Int × Int)) :=
  ((barcodes.map bbox_from_quad).enum).mergeSort
    (fun a b => decide (sort_key a ≤ sort_key b))

/-- The dropped index set computed by `_prefer_topmost_stacked`
(processor.py:243-261). -/
def stacked_dropped (barcodes : List DetectedBarcode) : List Nat :=
  stacked_outer (stacked_order barcodes) []

/-- Embedding of `processor._prefer_topmost_stacked` (processor.py:234-262):
keep the entries whose index was not dropped. -/
def prefer_topmost_stacked (barcodes : List DetectedBarcode) :
    List DetectedBarcode :=
  (barcodes.enum.filter
    (fun p => decide (p.1 ∉ stacked_dropped barcodes))).map Prod.snd

theorem stacked_inner_subset (i : Nat) (bi : Int × Int × Int × Int)
    (rest : List (Nat × Option (Int × Int × Int × Int))) (d : List Nat) :
    ∀ x ∈ d, x ∈ stacked_inner i bi rest d := by
  induction rest generalizing d with
  | nil => intro x hx; simpa [stacked_inner] using hx
  | cons q rest ih =>
    intro x hx
    rw [stacked_inner]
    split
    · exact ih d x hx
    · split
      · exact ih d x hx
      · split
        · split
          · exact ih _ x (List.mem_cons_of_mem _ hx)
          · exact List.mem_cons_of_mem _ hx
        · exact ih d x hx

theorem sort_key_of_some {p : Nat × Option (Int × Int × Int × Int)}
    {bx : Int × Int × Int × Int} (h : p.2 = some bx) : sort_key p = bx.2.1 := by
  obtain ⟨n, o⟩ := p
  simp only at h
  rw [h]
  rfl

theorem stacked_inner_complete (i : Nat) (bi : Int × Int × Int × Int)
    (rest : List (Nat × Option (Int × Int × Int × Int))) (d : List Nat)
    (hs : ∀ p ∈ rest, ∀ bj, p.2 = some bj → bi.2.1 ≤ bj.2.1) :
    ∀ p ∈ rest, ∀ bj, p.2 = some bj → stacked_boxes bi bj →
      p.1 ∈ stacked_inner i bi rest d := by
  induction rest generalizing d with
  | nil => intro p hp; simp at hp
  | cons q rest ih =>
    intro p hp bj hbj hstk
    have hs' : ∀ r ∈ rest, ∀ bx, r.2 = some bx → bi.2.1 ≤ bx.2.1 :=
      fun r hr => hs r (List.mem_cons_of_mem _ hr)
    rw [stacked_inner]
    rcases List.mem_cons.mp hp with heq | hmem
    · rw [heq] at hbj ⊢
      split
      · rename_i hjd
        exact stacked_inner_subset i bi rest d _ hjd
      · split
        · rename_i heq2
          rw [heq2] at hbj
          simp at hbj
        · rename_i bq heq2
          have hbq : bq = bj := by
            rw [heq2] at hbj
            exact Option.some.inj hbj
          have hstk' : stacked_boxes bi bq := by rw [hbq]; exact hstk
          rw [if_pos hstk', if_pos (hs q (List.mem_cons_self _ _) bq heq2)]
          exact stacked_inner_subset i bi rest _ _ (List.mem_cons_self _ _)
    · split
      · exact ih d hs' p hmem bj hbj hstk
      · split
        · exact ih d hs' p hmem bj hbj hstk
        · rename_i bq heq2
          split
          · rw [if_pos (hs q (List.mem_cons_self _ _) bq heq2)]
            exact ih _ hs' p hmem bj hbj hstk
          · exact ih d hs' p hmem bj hbj hstk

theorem stacked_outer_subset
    (os : List (Nat × Option (Int × Int × Int × Int))) (d : List Nat) :
    ∀ x ∈ d, x ∈ stacked_outer os d := by
  induction os generalizing d with
  | nil => intro x hx; simpa [stacked_outer] using hx
  | cons q os ih =>
    intro x hx
    rw [stacked_outer]
    split
    · exact ih d x hx
    · rename_i bi heq2
      split
      · exact ih d x hx
      · exact ih _ x (stacked_inner_subset q.1 bi os d x hx)

theorem stacked_outer_pairwise
    (os : List (Nat × Option (Int × Int × Int × Int))) (d : List Nat)
    (hsort : os.Pairwise (fun a b => sort_key a ≤ sort_key b)) :
    os.Pairwise (fun p q => ∀ bi bj, p.2 = some bi → q.2 = some bj →
      p.1 ∉ stacked_outer os d → q.1 ∉ stacked_outer os d →
      ¬ stacked_boxes bi bj) := by
  induction os generalizing d with
  | nil => exact List.Pairwise.nil
  | cons q os ih =>
    obtain ⟨hhead, htail⟩ := List.pairwise_cons.mp hsort
    rw [stacked_outer]
    cases hq2 : q.2 with
    | none =>
      dsimp only
      refine List.pairwise_cons.mpr ⟨?_, ih d htail⟩
      intro qq hqq b1 b2 hb1
      rw [hq2] at hb1
      cases hb1
    | some bi =>
      dsimp only
      by_cases hid : q.1 ∈ d
      · rw [if_pos hid]
        refine List.pairwise_cons.mpr ⟨?_, ih d htail⟩
        intro qq hqq b1 b2 hb1 hb2 hi hqd
        exact absurd (stacked_outer_subset os d q.1 hid) hi
      · rw [if_neg hid]
        refine List.pairwise_cons.mpr ⟨?_, ih _ htail⟩
        intro qq hqq b1 b2 hb1 hb2 hi hqd hstk
        have hb1' : bi = b1 := by
          rw [hq2] at hb1
          exact Option.some.inj hb1
        have hstk' : stacked_boxes bi b2 := by rw [hb1']; exact hstk
        have hs : ∀ p ∈ os, ∀ bj, p.2 = some bj → bi.2.1 ≤ bj.2.1 := by
          intro p hp bj hbj
          have hk := hhead p hp
          rw [sort_key_of_some hbj, sort_key_of_some hq2] at hk
          exact hk
        have hin : qq.1 ∈ stacked_inner q.1 bi os d :=
          stacked_inner_complete q.1 bi os d hs qq hqq b2 hb2 hstk'
        exact hqd (stacked_outer_subset os _ _ hin)

/-- C2.  `_dedupe_and_filter` drops exact duplicate (symbology, raw_text)
pairs (the output key list has no duplicates), drops every EAN-13 / EAN-8 /
UPC-A entry whose mod-10 checksum is invalid (all surviving checked-type
entries validate), never checksum-gates UPC-E (the gate predicate is
constantly true on UPC-E entries), and keeps exactly the first checksum-
eligible entry of each symbology in {UPC-A, EAN-13, UPC-E, EAN-8}, so the
output contains at most one entry of each of those four types. -/
theorem C2_dedupe_and_filter (l : List DetectedBarcode) (T : String)
    (hT : T ∈ upcean_types) :
    ((dedupe_and_filter l).map
        (fun b => (b.barcode_type, b.barcode_value))).Nodup ∧
    (∀ b ∈ dedupe_and_filter l, b.barcode_type ∈ checked_types →
      is_valid_upcean b.barcode_type b.barcode_value = true) ∧
    (∀ b : DetectedBarcode, b.barcode_type = ("UPC-E") →
      checksum_eligible b = true) ∧
    (dedupe_and_filter l).filter (fun b => b.barcode_type == T) =
      (l.filter (fun b => b.barcode_type == T && checksum_eligible b)).take 1 ∧
    ((dedupe_and_filter l).filter (fun b => b.barcode_type == T)).length ≤ 1 := by
  refine ⟨(dedupe_aux_keys_nodup l [] []).1, dedupe_aux_valid l [] [], ?_, ?_, ?_⟩
  · intro b hb
    unfold checksum_eligible
    rw [hb, if_neg (by decide)]
  · exact dedupe_aux_first_seen l [] [] T hT (by simp) (by simp)
  · rw [show dedupe_and_filter l = dedupe_aux l [] [] from rfl,
      dedupe_aux_first_seen l [] [] T hT (by simp) (by simp)]
    exact List.length_take_le 1 _

/-- Concrete input list for the C2 witness: a valid UPC-A, its exact
duplicate, an invalid UPC-A, and a UPC-E. -/
def c2_witness_list : List DetectedBarcode :=
  [{ barcode_type := ("UPC-A"), barcode_value := ("036000291452"), quad := [],
     detection_method := none },
   { barcode_type := ("UPC-A"), barcode_value := ("036000291452"), quad := [],
     detection_method := none },
   { barcode_type := ("UPC-A"), barcode_value := ("123456789013"), quad := [],
     detection_method := none },
   { barcode_type := ("UPC-E"), barcode_value := ("01234565"), quad := [],
     detection_method := none }]

/-- Witness for C2 at a concrete input. -/
theorem C2_dedupe_and_filter_witness :
    ("UPC-A") ∈ upcean_types ∧
    (((dedupe_and_filter c2_witness_list).map
        (fun b => (b.barcode_type, b.barcode_value))).Nodup ∧
    (∀ b ∈ dedupe_and_filter c2_witness_list,
      b.barcode_type ∈ checked_types →
      is_valid_upcean b.barcode_type b.barcode_value = true) ∧
    (∀ b : DetectedBarcode, b.barcode_type = ("UPC-E") →
      checksum_eligible b = true) ∧
    (dedupe_and_filter c2_witness_list).filter
        (fun b => b.barcode_type == ("UPC-A")) =
      (c2_witness_list.filter
        (fun b => b.barcode_type == ("UPC-A") && checksum_eligible b)).take 1 ∧
    ((dedupe_and_filter c2_witness_list).filter
        (fun b => b.barcode_type == ("UPC-A"))).length ≤ 1) :=
  ⟨by decide, C2_dedupe_and_filter c2_witness_list ("UPC-A") (by decide)⟩

/-- Substring containment, Python `needle in hay` on strings. -/
def str_contains (hay needle : String) : Bool :=
  hay.toList.tails.any (fun t => needle.toList.isPrefixOf t)

/-- Python `"Code" in (b.barcode_type or "") and "128" in b.barcode_type`
(processor.py:312). -/
def is_code128_type (t : String) : Bool :=
  str_contains t ("Code") && str_contains t ("128")

/-- Python `"DataBar" in (b.barcode_type or "")` (processor.py:302/313). -/
def is_databar_type (t : String) : Bool :=
  str_contains t ("DataBar")

/-- The set literal `{"Data Matrix", "QR Code", "QRCode"}` of
processor.py:298. -/
def qr_excluded_types : List String :=
  [("Data Matrix"), ("QR Code"), ("QRCode")]

/-- Second part of the Code128-preference step (processor.py:317-319):
drop UPC/EAN entries from `l1` when the post-dedupe list `orig` contains
both a Code128 entry and a UPC/EAN entry (flags were computed on `orig`
before any dropping). -/
def code128_upcean_drop (orig l1 : List DetectedBarcode) :
    List DetectedBarcode :=
  if orig.any (fun b => is_code128_type b.barcode_type) &&
      orig.any (fun b => decide (b.barcode_type ∈ upcean_types)) then
    l1.filter (fun b => decide (b.barcode_type ∉ upcean_types))
  else l1

/-- The Code128-preference step of `process_image_to_rows`
(processor.py:311-319): with a Code128 entry present, DataBar entries are
dropped, then UPC/EAN entries are dropped. -/
def code128_preference (l : List DetectedBarcode) : List DetectedBarcode :=
  if l.any (fun b => is_code128_type b.barcode_type) &&
      l.any (fun b => is_databar_type b.barcode_type) then
    code128_upcean_drop l (l.filter (fun b => !is_databar_type b.barcode_type))
  else code128_upcean_drop l l

/-- OCR recovery branch of `process_image_to_rows` (processor.py:300-308),
taken when only GS1/DataBar types remain and OCR is enabled.  The external
OCR collaborators `ocr_upcean_digit_band` / `ocr_upcean_numeric` (outside
the core per the spec) are modelled by the oracle parameter `ocr_result`
(`none` for a falsy result). -/
def ocr_replacement (ocr_enabled : Bool) (ocr_result : Option String)
    (bs0 : List DetectedBarcode) : List DetectedBarcode :=
  if (!(bs0.any (fun b => decide (b.barcode_type ∈ upcean_types))) &&
      bs0.any (fun b => is_databar_type b.barcode_type)) && ocr_enabled then
    match ocr_result with
    | some t =>
      if t.length ≠ 0 ∧ (t.length = 12 ∨ t.length = 13 ∨ t.length = 8) then
        [{ barcode_type :=
             if t.length = 13 then ("EAN-13")
             else if t.length = 12 then ("UPC-A") else ("EAN-8"),
           barcode_value := t, quad := [], detection_method := none }]
      else bs0
    | none => bs0
  else bs0

/-- The detection-reconciliation steps of `processor.process_image_to_rows`
(processor.py:296-319): QR/DataMatrix exclusion, GS1-only OCR recovery,
dedupe-and-filter, Code128 preference.  The returned list is exactly the
list the row loop (processor.py:321-377) walks, copying `barcode_type`
verbatim into each emitted `RowDraft` (processor.py:376). -/
def reconcile_detections (ocr_enabled : Bool) (ocr_result : Option String)
    (barcodes : List DetectedBarcode) : List DetectedBarcode :=
  code128_preference (dedupe_and_filter (ocr_replacement ocr_enabled ocr_result
    (barcodes.filter (fun b => decide (b.barcode_type ∉ qr_excluded_types)))))

/-- The per-image row types: `RowDraft.barcode_type` is copied verbatim from
each reconciled detection (processor.py:376). -/
def row_types (ocr_enabled : Bool) (ocr_result : Option String)
    (barcodes : List DetectedBarcode) : List String :=
  (reconcile_detections ocr_enabled ocr_result barcodes).map
    (fun b => b.barcode_type)

theorem mem_code128_upcean_drop {orig l1 : List DetectedBarcode}
    {b : DetectedBarcode} (hb : b ∈ code128_upcean_drop orig l1) : b ∈ l1 := by
  unfold code128_upcean_drop at hb
  split at hb
  · exact List.mem_of_mem_filter hb
  · exact hb

theorem mem_code128_preference {l : List DetectedBarcode}
    {b : DetectedBarcode} (hb : b ∈ code128_preference l) : b ∈ l := by
  unfold code128_preference at hb
  split at hb
  · exact List.mem_of_mem_filter (mem_code128_upcean_drop hb)
  · exact mem_code128_upcean_drop hb

theorem mem_dedupe_aux {l : List DetectedBarcode}
    {seen : List (String × String)} {st : List String} {b : DetectedBarcode}
    (hb : b ∈ dedupe_aux l seen st) : b ∈ l := by
  induction l generalizing seen st with
  | nil => simp [dedupe_aux] at hb
  | cons a rest ih =>
    rw [dedupe_aux] at hb
    split at hb
    · exact List.mem_cons_of_mem _ (ih hb)
    · split at hb
      · exact List.mem_cons_of_mem _ (ih hb)
      · split at hb
        · exact List.mem_cons_of_mem _ (ih hb)
        · rcases List.mem_cons.mp hb with h | h
          · exact h ▸ List.mem_cons_self _ _
          · exact List.mem_cons_of_mem _ (ih h)

/-- C10.  Every detection surviving reconciliation — and hence every emitted
row, whose `barcode_type` is copied verbatim from it — has a type that is
neither "QR Code" nor "Data Matrix": the  first step of
`process_image_to_rows` filters both out, and the OCR recovery branch can
only introduce UPC-A / EAN-13 / EAN-8 entries. -/
theorem C10_no_qr_datamatrix (ocr_enabled : Bool) (ocr_result : Option String)
    (barcodes : List DetectedBarcode) :
    ∀ t ∈ row_types ocr_enabled ocr_result barcodes,
      t ≠ ("QR Code") ∧ t ≠ ("Data Matrix") := by
  intro t ht
  obtain ⟨b, hb, hbt⟩ := List.mem_map.mp ht
  subst hbt
  have hb1 := mem_dedupe_aux (mem_code128_preference hb)
  unfold ocr_replacement at hb1
  have hfilter : ∀ c : DetectedBarcode,
      c ∈ (barcodes.filter
        (fun x => decide (x.barcode_type ∉ qr_excluded_types))) →
      c.barcode_type ≠ ("QR Code") ∧ c.barcode_type ≠ ("Data Matrix") := by
    intro c hc
    have h2 : c.barcode_type ∉ qr_excluded_types := by
      have h3 := List.of_mem_filter hc
      simpa using h3
    constructor
    · intro he; exact h2 (by rw [he]; decide)
    · intro he; exact h2 (by rw [he]; decide)
  have hocr : ∀ n : Nat,
      ((if n = 13 then ("EAN-13") else if n = 12 then ("UPC-A")
        else ("EAN-8")) : String) ≠ ("QR Code") ∧
      ((if n = 13 then ("EAN-13") else if n = 12 then ("UPC-A")
        else ("EAN-8")) : String) ≠ ("Data Matrix") := by
    intro n
    constructor
    · split
      · decide
      · split
        · decide
        · decide
    · split
      · decide
      · split
        · decide
        · decide
  split at hb1
  · split at hb1
    · split at hb1
      · rcases List.mem_cons.mp hb1 with h | h
        · rename_i t ht
          rw [h]
          exact hocr t.length
        · simp at h
      · exact hfilter b hb1
    · exact hfilter b hb1
  · exact hfilter b hb1

/-- Witness for C10 at a concrete input. -/
theorem C10_no_qr_datamatrix_witness :
    ("Code 39") ∈ row_types false none
      [{ barcode_type := ("Code 39"), barcode_value := ("X"), quad := [],
         detection_method := none }] ∧
    (("Code 39") : String) ≠ ("QR Code") ∧
    (("Code 39") : String) ≠ ("Data Matrix") :=
  ⟨by decide, C10_no_qr_datamatrix false none
    [{ barcode_type := ("Code 39"), barcode_value := ("X"), quad := [],
       detection_method := none }] _ (by decide)⟩

theorem code128_preference_spec (d : List DetectedBarcode)
    (h : ∃ b ∈ d, b.barcode_type = ("Code 128")) :
    (∀ b ∈ code128_preference d,
      is_databar_type b.barcode_type = false ∧
      b.barcode_type ∉ upcean_types) ∧
    ∀ b ∈ d, b.barcode_type = ("Code 128") → b ∈ code128_preference d := by
  obtain ⟨c, hc_mem, hc_ty⟩ := h
  have hc : d.any (fun b => is_code128_type b.barcode_type) = true :=
    List.any_eq_true.mpr ⟨c, hc_mem, by rw [hc_ty]; rfl⟩
  have hnof : ∀ (hupc : d.any
        (fun b => decide (b.barcode_type ∈ upcean_types)) = false),
      ∀ b ∈ d, b.barcode_type ∉ upcean_types := by
    intro hupc b hb hmem
    exact List.any_eq_false.mp hupc b hb (decide_eq_true hmem)
  have hnodb : ∀ (hdb : d.any
        (fun b => is_databar_type b.barcode_type) = false),
      ∀ b ∈ d, is_databar_type b.barcode_type = false := by
    intro hdb b hb
    have h := List.any_eq_false.mp hdb b hb
    simpa using h
  unfold code128_preference code128_upcean_drop
  rcases Bool.eq_false_or_eq_true
    (d.any (fun b => is_databar_type b.barcode_type)) with hdb | hdb <;>
  rcases Bool.eq_false_or_eq_true
    (d.any (fun b => decide (b.barcode_type ∈ upcean_types))) with hupc | hupc <;>
  simp only [hc, hdb, hupc, Bool.true_and, Bool.and_false, Bool.and_true,
    Bool.false_and, if_true, if_false, Bool.false_eq_true, Bool.true_eq_false]
  · -- databar present, upcean present
    constructor
    · intro b hb
      have hb1 := List.mem_filter.mp hb
      have hb2 := List.mem_filter.mp hb1.1
      exact ⟨by simpa using hb2.2, of_decide_eq_true hb1.2⟩
    · intro b hb hty
      refine List.mem_filter.mpr ⟨List.mem_filter.mpr ⟨hb, ?_⟩, ?_⟩
      · rw [hty]; rfl
      · rw [hty]; rfl
  · -- databar present, no upcean
    constructor
    · intro b hb
      have hb2 := List.mem_filter.mp hb
      exact ⟨by simpa using hb2.2, hnof hupc b hb2.1⟩
    · intro b hb hty
      exact List.mem_filter.mpr ⟨hb, by rw [hty]; rfl⟩
  · -- no databar, upcean present
    constructor
    · intro b hb
      have hb1 := List.mem_filter.mp hb
      exact ⟨hnodb hdb b hb1.1, of_decide_eq_true hb1.2⟩
    · intro b hb hty
      exact List.mem_filter.mpr ⟨hb, by rw [hty]; rfl⟩
  · -- neither
    constructor
    · intro b hb
      exact ⟨hnodb hdb b hb, hnof hupc b hb⟩
    · intro b hb hty
      exact hb

/-- C7.  After deduplication, whenever the detection list contains a
Code 128 entry, the Code128-preference step leaves no DataBar-family entry
and no UPC-A / UPC-E / EAN-13 / EAN-8 entry in the result, while every
Code 128 entry of the deduplicated list survives. -/
theorem C7_code128_drops_databar_upcean (l : List DetectedBarcode)
    (h : ∃ b ∈ dedupe_and_filter l, b.barcode_type = ("Code 128")) :
    (∀ b ∈ code128_preference (dedupe_and_filter l),
      is_databar_type b.barcode_type = false ∧
      b.barcode_type ∉ upcean_types) ∧
    ∀ b ∈ dedupe_and_filter l, b.barcode_type = ("Code 128") →
      b ∈ code128_preference (dedupe_and_filter l) :=
  code128_preference_spec (dedupe_and_filter l) h

/-- Concrete input for the C7 witness: the spec's end-to-end scenario, an
EAN-13 read and a Code 128 read of the same physical label. -/
def c7_witness_list : List DetectedBarcode :=
  [{ barcode_type := ("EAN-13"), barcode_value := ("4006381333931"),
     quad := [(0, 0), (10, 0), (10, 5), (0, 5)], detection_method := none },
   { barcode_type := ("Code 128"), barcode_value := ("4006381333931XYZ"),
     quad := [(0, 20), (10, 20), (10, 25), (0, 25)], detection_method := none }]

/-- Witness for C7 at a concrete input. -/
theorem C7_code128_drops_databar_upcean_witness :
    (∃ b ∈ dedupe_and_filter c7_witness_list,
      b.barcode_type = ("Code 128")) ∧
    ((∀ b ∈ code128_preference (dedupe_and_filter c7_witness_list),
      is_databar_type b.barcode_type = false ∧
      b.barcode_type ∉ upcean_types) ∧
    ∀ b ∈ dedupe_and_filter c7_witness_list,
      b.barcode_type = ("Code 128") →
      b ∈ code128_preference (dedupe_and_filter c7_witness_list)) :=
  ⟨by decide, C7_code128_drops_databar_upcean c7_witness_list (by decide)⟩

theorem overlap_ratio_1d_comm (a1 a2 b1 b2 : Int) :
    overlap_ratio_1d a1 a2 b1 b2 = overlap_ratio_1d b1 b2 a1 a2 := by
  unfold overlap_ratio_1d
  rw [max_comm a1 b1, min_comm a2 b2,
    min_comm (max 0 (a2 - a1)) (max 0 (b2 - b1))]

theorem stacked_boxes_comm {bi bj : Int × Int × Int × Int}
    (h : stacked_boxes bi bj) : stacked_boxes bj bi := by
  obtain ⟨h1, h2⟩ := h
  exact ⟨overlap_ratio_1d_comm bj.1 bj.2.2.1 bi.1 bi.2.2.1 ▸ h1,
    overlap_ratio_1d_comm bj.2.1 bj.2.2.2 bi.2.1 bi.2.2.2 ▸ h2⟩

/-- C3 amended, part 1.  The helper `_prefer_topmost_stacked` does collapse
stacking: in its output no two entries with bounding boxes are "stacked"
(horizontal overlap ratio ≥ 60% and vertical overlap ratio ≤ 10%) — of two
stacked entries both still present when they are compared in top-edge-Y
order, the one with the larger top Y is dropped.  (`process_image_to_rows`
never invokes this helper; see the C3 counterexample.) -/
theorem C3_prefer_topmost_no_stacked_pair (l : List DetectedBarcode) :
    (prefer_topmost_stacked l).Pairwise (fun a b =>
      ∀ ba bb, bbox_from_quad a = some ba → bbox_from_quad b = some bb →
        ¬ stacked_boxes ba bb) := by
  have htrans : ∀ a b c : Nat × Option (Int × Int × Int × Int),
      (decide (sort_key a ≤ sort_key b)) = true →
      (decide (sort_key b ≤ sort_key c)) = true →
      (decide (sort_key a ≤ sort_key c)) = true := by
    intro a b c hab hbc
    simp only [decide_eq_true_eq] at *
    exact le_trans hab hbc
  have htotal : ∀ a b : Nat × Option (Int × Int × Int × Int),
      ((decide (sort_key a ≤ sort_key b)) || (decide (sort_key b ≤ sort_key a))) = true := by
    intro a b
    simp only [Bool.or_eq_true, decide_eq_true_eq]
    exact le_total _ _
  have hsorted : (stacked_order l).Pairwise (fun a b => sort_key a ≤ sort_key b) := by
    have h := @List.sorted_mergeSort _
      (fun a b => decide (sort_key a ≤ sort_key b)) htrans htotal
      ((l.map bbox_from_quad).enum)
    exact h.imp (fun hab => of_decide_eq_true hab)
  have hpw := stacked_outer_pairwise (stacked_order l) [] hsorted
  have hsym : ∀ {x y : Nat × Option (Int × Int × Int × Int)},
      (∀ bi bj, x.2 = some bi → y.2 = some bj →
        x.1 ∉ stacked_outer (stacked_order l) [] →
        y.1 ∉ stacked_outer (stacked_order l) [] → ¬ stacked_boxes bi bj) →
      (∀ bi bj, y.2 = some bi → x.2 = some bj →
        y.1 ∉ stacked_outer (stacked_order l) [] →
        x.1 ∉ stacked_outer (stacked_order l) [] → ¬ stacked_boxes bi bj) := by
    intro x y hxy bi bj hbi hbj hy hx hstk
    exact hxy bj bi hbj hbi hx hy (stacked_boxes_comm hstk)
  have hperm : (stacked_order l).Perm ((l.map bbox_from_quad).enum) :=
    List.mergeSort_perm _ _
  have hpw2 := (hperm.pairwise_iff hsym).mp hpw
  rw [List.enum_map, List.pairwise_map] at hpw2
  unfold prefer_topmost_stacked
  rw [List.pairwise_map]
  have hf := hpw2.filter (fun p => decide (p.1 ∉ stacked_dropped l))
  refine List.Pairwise.imp_of_mem ?_ hf
  intro p q hp hq hR ba bb hba hbb hstk
  have hpd : p.1 ∉ stacked_dropped l := by
    have hm := List.mem_filter.mp hp
    simpa using hm.2
  have hqd : q.1 ∉ stacked_dropped l := by
    have hm := List.mem_filter.mp hq
    simpa using hm.2
  exact hR ba bb (by simpa using hba) (by simpa using hbb) hpd hqd hstk


/-- C3 counterexample.  The claim asserts that reconciliation performs the
stacked-duplicate geometric pass, so the final per-image result would have
geometric stacking collapsed to the topmost quad.  But
`process_image_to_rows` never invokes `_prefer_topmost_stacked`: on two
stacked Code 39 detections (100% horizontal overlap, 0% vertical overlap,
distinct values) reconciliation returns both entries, including the lower
one (top edge 40 > 0), instead of dropping it. -/
theorem C3_stacked_pass_not_invoked_counterexample :
    reconcile_detections false none
      [{ barcode_type := ("Code 39"), barcode_value := ("AAA"),
         quad := [(0, 0), (100, 0), (100, 10), (0, 10)],
         detection_method := none },
       { barcode_type := ("Code 39"), barcode_value := ("BBB"),
         quad := [(0, 40), (100, 40), (100, 50), (0, 50)],
         detection_method := none }] =
      [{ barcode_type := ("Code 39"), barcode_value := ("AAA"),
         quad := [(0, 0), (100, 0), (100, 10), (0, 10)],
         detection_method := none },
       { barcode_type := ("Code 39"), barcode_value := ("BBB"),
         quad := [(0, 40), (100, 40), (100, 50), (0, 50)],
         detection_method := none }] ∧
    bbox_from_quad
      { barcode_type := ("Code 39"), barcode_value := ("AAA"),
        quad := [(0, 0), (100, 0), (100, 10), (0, 10)],
        detection_method := none } = some (0, 0, 100, 10) ∧
    bbox_from_quad
      { barcode_type := ("Code 39"), barcode_value := ("BBB"),
        quad := [(0, 40), (100, 40), (100, 50), (0, 50)],
        detection_method := none } = some (0, 40, 100, 50) ∧
    stacked_boxes (0, 0, 100, 10) (0, 40, 100, 50) := by
  refine ⟨by decide, by decide, by decide, ?_⟩
  constructor
  · show (6 : ℚ)/10 ≤ overlap_ratio_1d 0 100 0 100
    norm_num [overlap_ratio_1d, min_def, max_def]
  · show overlap_ratio_1d 0 10 40 50 ≤ (1 : ℚ)/10
    norm_num [overlap_ratio_1d, min_def, max_def]

end Processor

namespace BarcodeParser

open Processor (DetectedBarcode)

/-- A raw read delivered by the zxing-cpp binding via
`_read_barcodes_with_opts` (barcode_parser.py:147-156): the stringified
format (`str(r.format)`), the decoded text, and the corner quad that
`_extract_quad` (barcode_parser.py:98-128) recovers from the binding's
position object (empty when no position is exposed). -/
structure RawResult where
  format : String
  text : String
  quad : List (Int × Int)
deriving DecidableEq, Repr

/-- The format masks `detect_barcodes` passes to the decoder: UPC/EAN only
(barcode_parser.py:446-449, 555-558), Code128 + UPC/EAN
(barcode_parser.py:541-543), and Code128 only (barcode_parser.py:616). -/
inductive FormatMask where
  | upcEan
  | code128UpcEan
  | code128
deriving DecidableEq, Repr

/-- Symbolic description of the PIL image variants `detect_barcodes`
builds; pixel content is abstracted, the decode oracle consumes the
descriptions.  `rotate` is PIL `Image.rotate(angle, expand=True)`,
`resize` carries the exact target pixel size, `contrast` the
`ImageEnhance.Contrast(..).enhance(factor)` factor, `crop` the
(left, top, right, bottom) box of `Image.crop`. -/
inductive PImage where
  | original (w h : Nat)
  | resize (w h : Nat) (img : PImage)
  | rotate (angle : Int) (img : PImage)
  | grayAutocontrast (img : PImage)
  | contrast (factor : ℚ) (img : PImage)
  | sharpen (img : PImage)
  | crop (l t r b : Nat) (img : PImage)
deriving DecidableEq

/-- Symbolic description of the OpenCV preprocessing pipeline of
`_code128_focused` (barcode_parser.py:709-788): channel extraction,
histogram equalization, black-hat morphology, Gaussian blur, Otsu
threshold, inversion, resize and rotation. -/
inductive CVImage where
  | channel (idx : Nat) (src : PImage)
  | channelV (src : PImage)
  | equalize (i : CVImage)
  | blackhat (kw kh : Nat) (i : CVImage)
  | gaussianBlur (k : Nat) (i : CVImage)
  | otsu (i : CVImage)
  | invert (i : CVImage)
  | resizeCV (w h : Nat) (i : CVImage)
  | rotateCV (angle : Int) (i : CVImage)
deriving DecidableEq

/-- A pyzbar read: symbol type name and decoded data. -/
structure ZbarRead where
  ztype : String
  data : String
deriving DecidableEq, Repr

/-- The decode-primitive boundary: zxing-cpp reads (per image variant and
optional format mask) and pyzbar reads (per preprocessed OpenCV image).
Both are deterministic functions, matching the spec's contract that the
adapter is deterministic in output for a given buffer. -/
structure DecoderOracle where
  zxing : PImage → Option FormatMask → List RawResult
  zbar : CVImage → List ZbarRead

/-- The `FRIENDLY_FORMAT` table (barcode_parser.py:32-44). -/
def friendly_format_table : List (String × String) :=
  [(("BarcodeFormat.UPCA"), ("UPC-A")),
   (("BarcodeFormat.UPCE"), ("UPC-E")),
   (("BarcodeFormat.EAN13"), ("EAN-13")),
   (("BarcodeFormat.EAN8"), ("EAN-8")),
   (("BarcodeFormat.CODE128"), ("Code 128")),
   (("BarcodeFormat.CODE39"), ("Code 39")),
   (("BarcodeFormat.ITF"), ("ITF")),
   (("BarcodeFormat.QRCode"), ("QR Code")),
   (("BarcodeFormat.DataMatrix"), ("Data Matrix")),
   (("BarcodeFormat.RSS14"), ("GS1 DataBar")),
   (("BarcodeFormat.RSS_EXPANDED"), ("GS1 DataBar Expanded"))]

/-- Python `str.replace` (all occurrences, scanned left to right) for a
non-empty pattern `p :: ps`. -/
def replace_sub (p : Char) (ps rep : List Char) : List Char → List Char
  | [] => []
  | c :: rest =>
    if (p :: ps).isPrefixOf (c :: rest) then
      rep ++ replace_sub p ps rep (rest.drop ps.length)
    else c :: replace_sub p ps rep rest
termination_by l => l.length
decreasing_by
  · simp only [List.length_drop, List.length_cons]
    omega
  · simp only [List.length_cons]
    omega

/-- Python `s.replace(pat, rep)` (the patterns used by the source are
non-empty; an empty pattern leaves the string unchanged here). -/
def str_replace (s pat rep : String) : String :=
  match pat.toList with
  | [] => s
  | p :: ps => String.mk (replace_sub p ps rep.toList s.toList)

/-- Embedding of `_friendly_format` (barcode_parser.py:131-133): table
lookup with a strip-prefix / rename fallback. -/
def friendly_format (text : String) : String :=
  match friendly_format_table.lookup text with
  | some f => f
  | none =>
    str_replace (str_replace text ("BarcodeFormat.") ("")) ("QRCode") ("QR Code")

/-- Embedding of `_to_detected` (barcode_parser.py:136-144): keep raw reads
with non-empty text as `DetectedBarcode`s. -/
def to_detected (results : List RawResult) : List DetectedBarcode :=
  results.filterMap fun r =>
    if r.text.length ≠ 0 then
      some { barcode_type := friendly_format r.format,
             barcode_value := r.text, quad := r.quad,
             detection_method := none }
    else none

/-- Embedding of `_try_decode` (barcode_parser.py:159-162). -/
def try_decode (oz : DecoderOracle) (img : PImage) : List DetectedBarcode :=
  to_detected (oz.zxing img none)

/-- Embedding of `_try_decode_formats` (barcode_parser.py:165-171). -/
def try_decode_formats (oz : DecoderOracle) (img : PImage)
    (mask : FormatMask) : List DetectedBarcode :=
  to_detected (oz.zxing img (some mask))

/-- Python `int(x)` on a rational: truncation toward zero. -/
def rat_trunc (q : ℚ) : Int := if 0 ≤ q then ⌊q⌋ else -⌊-q⌋

/-- Embedding of `_try_decode_with_map` (barcode_parser.py:174-191): decode
unrestricted and remap each raw quad point (x, y) to
`(ox + int(x * inv), oy + int(y * inv))` with `inv = 1/scale` when
`scale ≠ 0` and `inv = 1` otherwise. -/
def try_decode_with_map (oz : DecoderOracle) (img : PImage)
    (offset : Int × Int) (scale : ℚ) : List DetectedBarcode :=
  (oz.zxing img none).filterMap fun r =>
    if r.text.length ≠ 0 then
      some { barcode_type := friendly_format r.format,
             barcode_value := r.text,
             quad := r.quad.map (fun p =>
               (offset.1 + rat_trunc ((p.1 : ℚ) *
                  (if scale ≠ 0 then 1 / scale else 1)),
                offset.2 + rat_trunc ((p.2 : ℚ) *
                  (if scale ≠ 0 then 1 / scale else 1)))),
             detection_method := none }
    else none

/-- Embedding of `_try_decode_with_map_formats` (barcode_parser.py:194-214):
as `_try_decode_with_map` but with a format mask. -/
def try_decode_with_map_formats (oz : DecoderOracle) (img : PImage)
    (offset : Int × Int) (scale : ℚ) (mask : FormatMask) :
    List DetectedBarcode :=
  (oz.zxing img (some mask)).filterMap fun r =>
    if r.text.length ≠ 0 then
      some { barcode_type := friendly_format r.format,
             barcode_value := r.text,
             quad := r.quad.map (fun p =>
               (offset.1 + rat_trunc ((p.1 : ℚ) *
                  (if scale ≠ 0 then 1 / scale else 1)),
                offset.2 + rat_trunc ((p.2 : ℚ) *
                  (if scale ≠ 0 then 1 / scale else 1)))),
             detection_method := none }
    else none

/-- Exact IEEE-754 double values of the float literals whose `int(...)`
truncations the source computes: 0.3, 1.2, 1.3, 1.4, 1.8, 2.2 (1.5, 2.0
and 2.5 are exact dyadics). -/
def float03 : ℚ := mkRat 5404319552844595 18014398509481984
def float12 : ℚ := mkRat 5404319552844595 4503599627370496
def float13 : ℚ := mkRat 5854679515581645 4503599627370496
def float14 : ℚ := mkRat 6305039478318694 4503599627370496
def float15 : ℚ := mkRat 3 2
def float18 : ℚ := mkRat 8106479329266893 4503599627370496
def float22 : ℚ := mkRat 4953959590107546 2251799813685248
def float25 : ℚ := mkRat 5 2

/-- Embedding of `_grid_boxes` (barcode_parser.py:240-259): an N×N grid of
cells, each expanded by 30% and clamped to the image, kept when strictly
larger than 40×40.  Nat subtraction models Python's `max(0, ...)` clamp. -/
def grid_boxes (w h grid : Nat) : List (Nat × Nat × Nat × Nat) :=
  (List.range grid).flatMap fun gy =>
    (List.range grid).filterMap fun gx =>
      let cell_w := w / grid
      let cell_h := h / grid
      let l := gx * cell_w
      let t := gy * cell_h
      let r := if gx = grid - 1 then w else (gx + 1) * cell_w
      let b := if gy = grid - 1 then h else (gy + 1) * cell_h
      let exp_x := (rat_trunc (((r - l : Nat) : ℚ) * float03)).toNat
      let exp_y := (rat_trunc (((b - t : Nat) : ℚ) * float03)).toNat
      let el := l - exp_x
      let et := t - exp_y
      let er := min w (r + exp_x)
      let eb := min h (b + exp_y)
      if 40 < er - el ∧ 40 < eb - et then some (el, et, er, eb) else none

/-- Embedding of `_code128_focused` (barcode_parser.py:709-788): channel ×
kernel × inversion × scale × angle search with pyzbar restricted to
CODE128, returning on the first stripped read longer than 10 characters.
`w`/`h` are the pixel dimensions of `img` (every preprocessing step before
the resize preserves size).  Channel order follows the source: `b, g, r =
cv2.split(arr); channels.extend([r, g, b])` on an RGB array gives channels
2, 1, 0, then the HSV value channel. -/
def code128_focused (oz : DecoderOracle) (img : PImage) (w h : Nat)
    (aggressive : Bool) : List DetectedBarcode :=
  let channels : List CVImage :=
    [CVImage.channel 2 img, CVImage.channel 1 img, CVImage.channel 0 img,
     CVImage.channelV img]
  let scales : List ℚ :=
    if aggressive then [float18, float15, float12] else [float14]
  let kernels : List (Nat × Nat) := [(31, 5)]
  let angles : List Int := if aggressive then [0, -3, 3, -6, 6, -9, 9] else [0]
  let found :=
    channels.findSome? fun ch0 =>
      let ch := CVImage.equalize ch0
      kernels.findSome? fun k =>
        let th := CVImage.otsu (CVImage.gaussianBlur 3
          (CVImage.blackhat k.1 k.2 ch))
        [false, true].findSome? fun inv =>
          let img_bin := if inv then CVImage.invert th else th
          scales.findSome? fun s =>
            let new_w := max 48 (rat_trunc ((w : ℚ) * s)).toNat
            let new_h := max 48 (rat_trunc ((h : ℚ) * s)).toNat
            let cand := CVImage.resizeCV new_w new_h img_bin
            angles.findSome? fun ang =>
              let rot_img := if ang ≠ 0 then CVImage.rotateCV ang cand else cand
              (oz.zbar rot_img).findSome? fun r =>
                if r.ztype = ("CODE128") then
                  if (r.data.trim).length ≠ 0 ∧ 10 < (r.data.trim).length then
                    some [({ barcode_type := ("Code 128"),
                             barcode_value := r.data.trim, quad := [],
                             detection_method := none } : DetectedBarcode)]
                  else none
                else none
  match found with
  | some res => res
  | none => []

/-- Width/height of a quad's axis-aligned bounding box (the orientation
pre-check of barcode_parser.py:431-441). -/
def quad_width_height (quad : List (Int × Int)) : Int × Int :=
  match quad with
  | [] => (0, 0)
  | p :: ps =>
    ((ps.map Prod.fst).foldl max p.1 - (ps.map Prod.fst).foldl min p.1,
     (ps.map Prod.snd).foldl max p.2 - (ps.map Prod.snd).foldl min p.2)

/-- Verticality test of the orientation pre-check (barcode_parser.py:444):
height exceeds width by more than 30% (`height > width * 1.3`). -/
def is_vertical_quad (quad : List (Int × Int)) : Bool :=
  !quad.isEmpty &&
    decide (((quad_width_height quad).1 : ℚ) * float13 <
      ((quad_width_height quad).2 : ℚ))

/-- The base image of `detect_barcodes` (barcode_parser.py:411-418): the
original image, downscaled when `max_side` is given and exceeded; returns
the image description and its pixel size. -/
def base_image (w h : Nat) (max_side : Option Nat) : PImage × Nat × Nat :=
  match max_side with
  | none => (PImage.original w h, w, h)
  | some m =>
    if 1 < ((max w h : ℚ) / (m : ℚ)) then
      let nw := (rat_trunc ((w : ℚ) / ((max w h : ℚ) / (m : ℚ)))).toNat
      let nh := (rat_trunc ((h : ℚ) / ((max w h : ℚ) / (m : ℚ)))).toNat
      (PImage.resize nw nh (PImage.original w h), nw, nh)
    else (PImage.original w h, w, h)

/-- Tag every result with a detection-method label (the source mutates each
result's `detection_method` before returning). -/
def tag_results (m : String) (rs : List DetectedBarcode) :
    List DetectedBarcode :=
  rs.map fun r => { r with detection_method := some m }

/-- The orientation pre-check of `detect_barcodes`
(barcode_parser.py:420-463): one unrestricted decode of the base image; at
the first positioned result whose box is vertical (height > 1.3 × width),
retry ±90° rotations restricted to UPC/EAN and return the first non-empty
(tagged) result; everything else falls through to the general cascade. -/
def precheck_attempt (oz : DecoderOracle) (base : PImage) :
    List DetectedBarcode :=
  match (oz.zxing base none).find? (fun r => is_vertical_quad r.quad) with
  | some _ =>
    match ([90, -90] : List Int).findSome? (fun angle =>
        let upc := try_decode_formats oz (PImage.rotate angle base)
          FormatMask.upcEan
        if upc.length ≠ 0 then
          some (tag_results (("upc-vertical-rotated-") ++ toString angle) upc)
        else none) with
    | some res => res
    | none => []
  | none => []

/-- One cell of the aggressive 3×3 grid tier (barcode_parser.py:523-537):
crop the original full-resolution image to the cell, upscale to 1600 on
the longest side when smaller, decode unrestricted, remap quads through
the crop offset and scale. -/
def grid_attempt (oz : DecoderOracle) (img : PImage)
    (box : Nat × Nat × Nat × Nat) : List DetectedBarcode :=
  let cw := box.2.2.1 - box.1
  let ch := box.2.2.2 - box.2.1
  if max cw ch < 1600 then
    try_decode_with_map oz
      (PImage.resize
        (rat_trunc ((cw : ℚ) * (1600 / (max cw ch : ℚ)))).toNat
        (rat_trunc ((ch : ℚ) * (1600 / (max cw ch : ℚ)))).toNat
        (PImage.crop box.1 box.2.1 box.2.2.1 box.2.2.2 img))
      ((box.1 : Int), (box.2.1 : Int)) (1600 / (max cw ch : ℚ))
  else
    try_decode_with_map oz (PImage.crop box.1 box.2.1 box.2.2.1 box.2.2.2 img)
      ((box.1 : Int), (box.2.1 : Int)) 1

/-- The terminal Code128-focused tier (barcode_parser.py:625-637):
downscale the base image to at most 2400 px on the longest side and run
`_code128_focused` in aggressive mode.  The tagging loop of
barcode_parser.py:634-636 never fires, because the `DetectedBarcode`
dataclass always has a `detection_method` attribute (`hasattr` is always
true), so the results come back unchanged. -/
def code128_focused_attempt (oz : DecoderOracle) (base : PImage)
    (bw bh : Nat) : List DetectedBarcode :=
  if 2400 < max bw bh then
    code128_focused oz
      (PImage.resize
        (rat_trunc ((bw : ℚ) * (2400 / (max bw bh : ℚ)))).toNat
        (rat_trunc ((bh : ℚ) * (2400 / (max bw bh : ℚ)))).toNat base)
      (rat_trunc ((bw : ℚ) * (2400 / (max bw bh : ℚ)))).toNat
      (rat_trunc ((bh : ℚ) * (2400 / (max bw bh : ℚ)))).toNat true
  else code128_focused oz base bw bh true

/-- The ordered early-return attempts ("tiers") of `detect_barcodes`
(barcode_parser.py:399-639), in source order; only attempts whose guards
(effort flag, size conditions) hold are present, and each element is that
tier's qualifying result: the orientation pre-check; the aggressive small
rotations −4°, 4°, −8° and the 2× upscale; the seven fixed variants; the
small-image upscale fallback; the aggressive 3×3 grid (one attempt per
cell); the Code128+UPC/EAN-masked pass; the aggressive escalation tiers
(contrast-enhanced / upscaled / triple-sharpened UPC-EAN passes,
double-sharpened, high-contrast, large-upscale, Code128 upscale); the
terminal Code128-focused fallback. -/
def cascade_attempts (oz : DecoderOracle) (w h : Nat) (max_side : Option Nat)
    (aggressive : Bool) : List (List DetectedBarcode) :=
  let img := PImage.original w h
  let base := (base_image w h max_side).1
  let bw := (base_image w h max_side).2.1
  let bh := (base_image w h max_side).2.2
  [precheck_attempt oz base]
  ++ (if aggressive then
        ([-4, 4, -8] : List Int).map (fun a =>
          try_decode oz (PImage.rotate a base))
      else [])
  ++ (if aggressive ∧ max bw bh < 1800 then
        [try_decode oz (PImage.resize (2 * bw) (2 * bh) base)]
      else [])
  ++ [try_decode oz base,
      try_decode oz (PImage.rotate 90 base),
      try_decode oz (PImage.rotate 180 base),
      try_decode oz (PImage.rotate 270 base),
      try_decode oz (PImage.grayAutocontrast base),
      try_decode oz (PImage.contrast (mkRat 16 10) base),
      try_decode oz (PImage.sharpen base)]
  ++ (if max bw bh < 1200 then
        [try_decode oz (PImage.resize
          (rat_trunc ((bw : ℚ) * (if aggressive then float22 else float18))).toNat
          (rat_trunc ((bh : ℚ) * (if aggressive then float22 else float18))).toNat
          base)]
      else [])
  ++ (if aggressive then (grid_boxes w h 3).map (grid_attempt oz img) else [])
  ++ [try_decode_formats oz base FormatMask.code128UpcEan]
  ++ (if aggressive then
        [tag_results ("upc-contrast-enhanced")
          (try_decode_formats oz (PImage.contrast (mkRat 18 10) base)
            FormatMask.upcEan)]
      else [])
  ++ (if aggressive ∧ max bw bh < 2200 then
        [tag_results ("upc-upscaled")
          (try_decode_formats oz
            (PImage.resize (rat_trunc ((bw : ℚ) * float22)).toNat
              (rat_trunc ((bh : ℚ) * float22)).toNat base) FormatMask.upcEan)]
      else [])
  ++ (if aggressive then
        [tag_results ("upc-triple-sharpened (difficult)")
          (try_decode_formats oz
            (PImage.sharpen (PImage.sharpen (PImage.sharpen base)))
            FormatMask.upcEan),
         tag_results ("double-sharpened (difficult)")
          (try_decode oz (PImage.sharpen (PImage.sharpen base))),
         tag_results ("high-contrast-enhanced (difficult)")
          (try_decode oz (PImage.sharpen (PImage.sharpen
            (PImage.contrast 2 base))))]
      else [])
  ++ (if aggressive ∧ max bw bh < 2000 then
        [tag_results ("large-upscaled (difficult)")
          (try_decode oz (PImage.resize
            (rat_trunc ((bw : ℚ) * float25)).toNat
            (rat_trunc ((bh : ℚ) * float25)).toNat base))]
      else [])
  ++ (if aggressive ∧ 2000 ≤ max bw bh then
        [tag_results ("code128-large-upscaled (difficult)")
          (try_decode_formats oz (PImage.resize
            (rat_trunc ((bw : ℚ) * float15)).toNat
            (rat_trunc ((bh : ℚ) * float15)).toNat base) FormatMask.code128)]
      else [])
  ++ (if aggressive then [code128_focused_attempt oz base bw bh] else [])

/-- Sequential early-return runner over the tier results: invoke tiers in
order, tracing the invoked indices, and stop at the first non-empty result
(the source's chain of `if res: return res`). -/
def run_cascade : List (List DetectedBarcode) → List Nat → Nat →
    List DetectedBarcode × List Nat
  | [], trace, _ => ([], trace.reverse)
  | t :: ts, trace, k =>
    if t.length ≠ 0 then (t, (k :: trace).reverse)
    else run_cascade ts (k :: trace) (k + 1)

/-- Embedding of `detect_barcodes` (barcode_parser.py:399-639): run the
tiers in order, returning the first non-empty qualifying result or `[]`
when every tier exhausts.  The function is total: an empty result is a
value, not an exception. -/
def detect_barcodes (oz : DecoderOracle) (w h : Nat) (max_side : Option Nat)
    (aggressive : Bool) : List DetectedBarcode :=
  (run_cascade (cascade_attempts oz w h max_side aggressive) [] 0).1

/-- The tier indices `detect_barcodes` invokes, in order. -/
def invoked_tiers (oz : DecoderOracle) (w h : Nat) (max_side : Option Nat)
    (aggressive : Bool) : List Nat :=
  (run_cascade (cascade_attempts oz w h max_side aggressive) [] 0).2

end BarcodeParser

namespace BarcodeParser

theorem run_cascade_first_success (k : Nat) :
    ∀ (ts : List (List Processor.DetectedBarcode)) (trace : List Nat) (n : Nat),
    k < ts.length → ts.getD k [] ≠ [] → (∀ j < k, ts.getD j [] = []) →
    run_cascade ts trace n =
      (ts.getD k [], trace.reverse ++ (List.range (k + 1)).map (fun j => n + j)) := by
  induction k with
  | zero =>
    intro ts trace n hk hne hb
    cases ts with
    | nil => simp at hk
    | cons t ts' =>
      have ht : t.length ≠ 0 := by
        intro h0
        exact hne (by simpa using List.length_eq_zero.mp h0)
      rw [run_cascade, if_pos ht]
      simp [List.range_succ]
  | succ k ih =>
    intro ts trace n hk hne hb
    cases ts with
    | nil => simp at hk
    | cons t ts' =>
      have ht : t = [] := by
        have h0 := hb 0 (Nat.succ_pos k)
        simpa using h0
      rw [run_cascade, if_neg (by simp [ht])]
      rw [ih ts' (n :: trace) (n + 1) (by simpa using hk) (by simpa using hne)
        (fun j hj => by
          have hj' := hb (j + 1) (Nat.succ_lt_succ hj)
          simpa using hj')]
      simp only [List.getD_cons_succ]
      congr 1
      rw [List.reverse_cons, List.append_assoc]
      congr 1
      conv_rhs => rw [List.range_succ_eq_map]
      rw [List.map_cons, List.map_map, List.singleton_append]
      congr 1
      apply List.map_congr_left
      intro j hj
      show n + 1 + j = n + (j + 1)
      omega

/-- C1.  The transform cascade is a priority-ordered, early-stopping
search: for every decode oracle, image size, `max_side` and effort flag,
if tier `k` of `cascade_attempts` is the first whose qualifying result is
non-empty, then `detect_barcodes` returns exactly that result, and the
invoked tiers are exactly `0, 1, ..., k` — no tier after the first
successful one is ever invoked. -/
theorem C1_cascade_early_stop (oz : DecoderOracle) (w h : Nat)
    (max_side : Option Nat) (aggressive : Bool) (k : Nat)
    (hk : k < (cascade_attempts oz w h max_side aggressive).length)
    (hne : (cascade_attempts oz w h max_side aggressive).getD k [] ≠ [])
    (hbefore : ∀ j < k,
      (cascade_attempts oz w h max_side aggressive).getD j [] = []) :
    detect_barcodes oz w h max_side aggressive =
      (cascade_attempts oz w h max_side aggressive).getD k [] ∧
    invoked_tiers oz w h max_side aggressive = List.range (k + 1) := by
  have hrun := run_cascade_first_success k
    (cascade_attempts oz w h max_side aggressive) [] 0 hk hne hbefore
  constructor
  · show (run_cascade (cascade_attempts oz w h max_side aggressive) [] 0).1 = _
    rw [hrun]
  · show (run_cascade (cascade_attempts oz w h max_side aggressive) [] 0).2 = _
    rw [hrun]
    simp

/-- Concrete oracle for the C1 witness: only the −4° rotation tier (tier 1
when aggressive, right after the orientation pre-check) decodes. -/
def c1_oracle : DecoderOracle :=
  { zxing := fun img mask =>
      if img = PImage.rotate (-4) (PImage.original 10 10) ∧ mask = none then
        [{ format := ("BarcodeFormat.EAN13"), text := ("4006381333931"),
           quad := [] }]
      else [],
    zbar := fun _ => [] }

/-- Witness for C1 at a concrete input: tier 0 (the pre-check) fails,
tier 1 succeeds, and the cascade stops right there. -/
theorem C1_cascade_early_stop_witness :
    (1 < (cascade_attempts c1_oracle 10 10 none true).length) ∧
    ((cascade_attempts c1_oracle 10 10 none true).getD 1 [] ≠ []) ∧
    (∀ j < 1, (cascade_attempts c1_oracle 10 10 none true).getD j [] = []) ∧
    (detect_barcodes c1_oracle 10 10 none true =
      (cascade_attempts c1_oracle 10 10 none true).getD 1 [] ∧
    invoked_tiers c1_oracle 10 10 none true = List.range 2) :=
  ⟨by with_unfolding_all decide, by with_unfolding_all decide,
   by with_unfolding_all decide,
   C1_cascade_early_stop c1_oracle 10 10 none true 1
     (by with_unfolding_all decide) (by with_unfolding_all decide)
     (by with_unfolding_all decide)⟩

/-- C8.  When every cascade tier exhausts without a qualifying result,
`detect_barcodes` returns the empty list; the embedding is a total
function, so the empty result is a normal value, never an exception. -/
theorem C8_exhausted_cascade_empty (oz : DecoderOracle) (w h : Nat)
    (max_side : Option Nat) (aggressive : Bool)
    (hall : ∀ t ∈ cascade_attempts oz w h max_side aggressive, t = []) :
    detect_barcodes oz w h max_side aggressive = [] := by
  have haux : ∀ (ts : List (List Processor.DetectedBarcode))
      (trace : List Nat) (n : Nat), (∀ t ∈ ts, t = []) →
      (run_cascade ts trace n).1 = [] := by
    intro ts
    induction ts with
    | nil => intro trace n hts; rw [run_cascade]
    | cons t ts' ih =>
      intro trace n hts
      rw [run_cascade, if_neg (by simp [hts t (List.mem_cons_self _ _)])]
      exact ih _ _ (fun x hx => hts x (List.mem_cons_of_mem _ hx))
  exact haux _ [] 0 hall

/-- Oracle for the C8 witness: no variant ever decodes. -/
def c8_oracle : DecoderOracle :=
  { zxing := fun _ _ => [], zbar := fun _ => [] }

/-- Witness for C8 at a concrete input (aggressive mode, so every tier
family is present). -/
theorem C8_exhausted_cascade_empty_witness :
    (∀ t ∈ cascade_attempts c8_oracle 10 10 none true, t = []) ∧
    detect_barcodes c8_oracle 10 10 none true = [] :=
  ⟨by with_unfolding_all decide,
   C8_exhausted_cascade_empty c8_oracle 10 10 none true
     (by with_unfolding_all decide)⟩

/-- The spec's Geometry Mapper formula (spec §4.3): `original = offset +
raw_point / scale`, with truncation to integer.  Stated as its own
definition, to be compared with the code's remapping. -/
def spec_remap_point (ox oy : Int) (s : ℚ) (p : Int × Int) : Int × Int :=
  (ox + rat_trunc ((p.1 : ℚ) * (1 / s)), oy + rat_trunc ((p.2 : ℚ) * (1 / s)))

/-- C9.  For a nonzero scale `s`, both `_try_decode_with_map` and
`_try_decode_with_map_formats` remap every raw quad point of every kept
detection by the spec formula `(ox + int(x * (1/s)), oy + int(y * (1/s)))`
— the code's guarded inverse (`inv = 1/scale if scale else 1.0`) coincides
with `1/s`. -/
theorem C9_quad_remapping (oz : DecoderOracle) (img : PImage)
    (ox oy : Int) (s : ℚ) (hs : s ≠ 0) (mask : FormatMask) :
    try_decode_with_map oz img (ox, oy) s =
      (oz.zxing img none).filterMap (fun r =>
        if r.text.length ≠ 0 then
          some { barcode_type := friendly_format r.format,
                 barcode_value := r.text,
                 quad := r.quad.map (spec_remap_point ox oy s),
                 detection_method := none }
        else none) ∧
    try_decode_with_map_formats oz img (ox, oy) s mask =
      (oz.zxing img (some mask)).filterMap (fun r =>
        if r.text.length ≠ 0 then
          some { barcode_type := friendly_format r.format,
                 barcode_value := r.text,
                 quad := r.quad.map (spec_remap_point ox oy s),
                 detection_method := none }
        else none) := by
  constructor
  · unfold try_decode_with_map spec_remap_point
    rw [if_pos hs]
  · unfold try_decode_with_map_formats spec_remap_point
    rw [if_pos hs]

/-- Oracle for the C9 witness: one read with a two-point quad. -/
def c9_oracle : DecoderOracle :=
  { zxing := fun _ _ =>
      [{ format := ("BarcodeFormat.EAN13"), text := ("X"),
         quad := [(4, 6), (9, 11)] }],
    zbar := fun _ => [] }

/-- Witness for C9 at a concrete input (offset (3, 5), scale 2). -/
theorem C9_quad_remapping_witness :
    ((2 : ℚ) ≠ 0) ∧
    (try_decode_with_map c9_oracle (PImage.original 9 9)
        ((3 : Int), (5 : Int)) 2 =
      (c9_oracle.zxing (PImage.original 9 9) none).filterMap (fun r =>
        if r.text.length ≠ 0 then
          some { barcode_type := friendly_format r.format,
                 barcode_value := r.text,
                 quad := r.quad.map (spec_remap_point 3 5 2),
                 detection_method := none }
        else none) ∧
    try_decode_with_map_formats c9_oracle (PImage.original 9 9)
        ((3 : Int), (5 : Int)) 2 FormatMask.upcEan =
      (c9_oracle.zxing (PImage.original 9 9)
          (some FormatMask.upcEan)).filterMap (fun r =>
        if r.text.length ≠ 0 then
          some { barcode_type := friendly_format r.format,
                 barcode_value := r.text,
                 quad := r.quad.map (spec_remap_point 3 5 2),
                 detection_method := none }
        else none)) :=
  ⟨by decide,
   C9_quad_remapping c9_oracle (PImage.original 9 9) 3 5 2 (by decide)
     FormatMask.upcEan⟩

end BarcodeParser
